import Mathlib

/-!
Shallow embedding of the route-plausibility resolution core of the
adsb.lol API (src/adsb_api/app.py), together with theorems checking the
design specification against it.

The embedded code:

* `get_route_for_callsign_lat_lng` (app.py lines 185-214): fetch the route
  record for a callsign from the store, and when a route is known walk its
  airport chain pairwise, consulting the external oracle per segment and
  stopping at the first segment the oracle marks OK; finally annotate the
  record with the verdict.
* `api_routeset` (app.py lines 262-274): resolve a list of
  (callsign, lat, lng) requests sequentially, collecting the records.

The store (redisVRS.get_route) and the oracle (utils.plausible) are not
part of the repository source; they are modelled as function parameters
with the interface the spec documents for them (a record or a failure for
the store; a verdict/distance pair or a failure for the oracle).
-/

set_option autoImplicit false

namespace AdsbApi

/-- An airport record as stored by the route store: ICAO and IATA codes and
decimal-degree coordinates.  Coordinates are idealised as rationals (the
Python values are JSON numbers). -/
structure AirportRecord where
  icao : String
  iata : String
  lat : Rat
  lon : Rat
deriving Repr, DecidableEq

/-- A route record as returned by the store and by the resolver.  The field
`plaus` models the optional "plausible" key of the Python dict:
`none` means the key is absent (no resolution attempt has annotated the
record), `some b` means the key is present with boolean value `b`. -/
structure RouteRecord where
  callsign : String
  airport_codes : String
  _airports : List AirportRecord
  plaus : Option Bool
deriving Repr, DecidableEq

/-- One item of the batch endpoint input: a callsign and a position, the
position carried as text exactly as it arrives in the request. -/
structure Plane where
  callsign : String
  lat : String
  lng : String
deriving Repr, DecidableEq

/-- The six text arguments of one oracle invocation, in the order the code
passes them: observed position, then airport A coordinates, then airport B
coordinates. -/
structure OracleCall where
  lat : String
  lng : String
  alat : String
  alon : String
  blat : String
  blon : String
deriving Repr, DecidableEq

/-- Errors a single resolution can end in: the store lookup failed, or an
oracle invocation failed.  In Python both are exceptions propagating out of
`get_route_for_callsign_lat_lng`. -/
inductive ResolveError where
  | storeError (msg : String)
  | oracleError (msg : String)
deriving Repr, DecidableEq

/-- Modelled from the spec: the PositionPlausibilityOracle
(`utils.plausible`, not in the repository source).  Given the six
coordinate strings it returns a verdict and a deviation distance, or fails
(unreachable oracle, malformed coordinate text). -/
abbrev Oracle := String → String → String → String → String → String → Except String (Bool × Rat)

/-- Modelled from the spec: the RouteStore (`redisVRS.get_route`, not in
the repository source).  Given a callsign it returns a route record (with
the "unknown" sentinel in `airport_codes` when no route exists) or fails
(store unavailable). -/
abbrev RouteStore := String → Except String RouteRecord

/-- The decimal digit character for `n % 10`. -/
def digitChar (n : Nat) : Char := Char.ofNat (48 + n % 10)

/-- The integer nearest to `x * 100000`, ties to even — the rounding of
Python fixed-point formatting — computed on the exact numerator and
denominator (for `d > 0`, `n / d` and `n % d` are floor division and its
nonnegative remainder). -/
def scaledRound5 (x : Rat) : Int :=
  let n : Int := x.num * 100000
  let d : Int := (x.den : Int)
  let q : Int := n / d
  let r : Int := n % d
  if 2 * r < d then q
  else if d < 2 * r then q + 1
  else if q % 2 = 0 then q else q + 1

/-- The five fraction digits (most significant first) of a value
`k < 100000` representing the rounded fractional part scaled by 10^5. -/
def frac5digits (k : Nat) : List Char :=
  [digitChar (k / 10000), digitChar (k / 1000), digitChar (k / 100),
   digitChar (k / 10), digitChar k]

/-- Fixed-point formatting with exactly five fractional digits: the Python
format `f"{x:.5f}"` the code applies to airport coordinates before passing
them to the oracle. -/
def format5 (x : Rat) : String :=
  String.mk ((if x.num < 0 then ['-'] else []) ++
    Nat.toDigits 10 ((scaledRound5 x).natAbs / 100000) ++
    '.' :: frac5digits ((scaledRound5 x).natAbs % 100000))

/-- Number of characters after the last dot of a string (the count of
fractional digits of a fixed-point literal). -/
def fracLen (s : String) : Nat :=
  (s.data.reverse.takeWhile (fun c => c != '.')).length

/-- The list of consecutive airport pairs of a route — the segments the
while loop of `get_route_for_callsign_lat_lng` visits via indices
`(a, a+1)` for `a` from `0` while `a < len - 1`. -/
def segmentsOf : List AirportRecord → List (AirportRecord × AirportRecord)
  | a :: b :: rest => (a, b) :: segmentsOf (b :: rest)
  | _ => []

/-- The oracle-call record for one segment `(A, B)`: the position strings
pass through unchanged, the four airport coordinates are formatted to five
fractional digits, exactly as at app.py lines 197-204. -/
def mkCall (lat lng : String) (A B : AirportRecord) : OracleCall :=
  ⟨lat, lng, format5 A.lat, format5 A.lon, format5 B.lat, format5 B.lon⟩

/-- The oracle-call record for a segment given as a pair. -/
def segCall (lat lng : String) (s : AirportRecord × AirportRecord) : OracleCall :=
  mkCall lat lng s.1 s.2

/-- Invoke the oracle on a recorded call. -/
def callOracle (oracle : Oracle) (c : OracleCall) : Except String (Bool × Rat) :=
  oracle c.lat c.lng c.alat c.alon c.blat c.blon

/-- The while loop of `get_route_for_callsign_lat_lng` (app.py lines
188-207), recursing over the list of consecutive segments.  `acc` is the
current `(is OK, distance)` pair (initially `(false, 0)`); each iteration
overwrites it with the oracle output, breaking when the verdict is true.
Returns the list of oracle calls actually made together with the final
pair, or the error of the first failing oracle invocation. -/
def checkSegments (oracle : Oracle) (lat lng : String) :
    List (AirportRecord × AirportRecord) → Bool × Rat →
    List OracleCall × Except String (Bool × Rat)
  | [], acc => ([], .ok acc)
  | s :: rest, _ =>
    let c := segCall lat lng s
    match callOracle oracle c with
    | .error e => ([c], .error e)
    | .ok (p, d) =>
      if p then ([c], .ok (p, d))
      else
        let r := checkSegments oracle lat lng rest (p, d)
        (c :: r.1, r.2)

/-- The result of one resolution: the (possibly annotated) route record,
and the final `(is OK, distance)` pair of the segment loop — the state the
code prints in its trace line — or `none` when the route was unknown and
the loop never ran. -/
structure ResolveOutput where
  route : RouteRecord
  finalCheck : Option (Bool × Rat)
deriving Repr, DecidableEq

/-- `get_route_for_callsign_lat_lng` (app.py lines 185-214): fetch the
route; when `airport_codes` is not the "unknown" sentinel, run the segment
loop and set the verdict key on the record; otherwise return the record
unchanged.  Also returns the list of oracle calls made, for the
observability claims. -/
def get_route_for_callsign_lat_lng (store : RouteStore) (oracle : Oracle)
    (callsign lat lng : String) :
    List OracleCall × Except ResolveError ResolveOutput :=
  match store callsign with
  | .error e => ([], .error (.storeError e))
  | .ok route =>
    if route.airport_codes ≠ "unknown" then
      match (checkSegments oracle lat lng (segmentsOf route._airports) (false, 0)).2 with
      | .error e =>
        ((checkSegments oracle lat lng (segmentsOf route._airports) (false, 0)).1,
         .error (.oracleError e))
      | .ok fin =>
        ((checkSegments oracle lat lng (segmentsOf route._airports) (false, 0)).1,
         .ok ⟨{ route with plaus := some fin.1 }, some fin⟩)
    else ([], .ok ⟨route, none⟩)

/-- The oracle calls a resolution makes. -/
def resolveCalls (store : RouteStore) (oracle : Oracle)
    (callsign lat lng : String) : List OracleCall :=
  (get_route_for_callsign_lat_lng store oracle callsign lat lng).1

/-- The outcome of a resolution. -/
def resolveResult (store : RouteStore) (oracle : Oracle)
    (callsign lat lng : String) : Except ResolveError ResolveOutput :=
  (get_route_for_callsign_lat_lng store oracle callsign lat lng).2

/-- The route record a resolution produces (what `api_routeset` appends to
its response list). -/
def resolveRouteOf (store : RouteStore) (oracle : Oracle) (p : Plane) :
    Except ResolveError RouteRecord :=
  (resolveResult store oracle p.callsign p.lat p.lng).map ResolveOutput.route

/-- `api_routeset` (app.py lines 262-274): resolve each plane of the list
in order, appending each record to the response.  The Python loop has no
per-item exception handling: the first failing resolution raises out of
the endpoint, so the whole batch ends in that error. -/
def api_routeset (store : RouteStore) (oracle : Oracle) :
    List Plane → Except ResolveError (List RouteRecord)
  | [] => .ok []
  | p :: rest =>
    match resolveRouteOf store oracle p with
    | .error e => .error e
    | .ok r =>
      match api_routeset store oracle rest with
      | .error e => .error e
      | .ok rs => .ok (r :: rs)

/-! ### Helper lemmas about segments and the segment loop -/

theorem segmentsOf_length (l : List AirportRecord) :
    (segmentsOf l).length = l.length - 1 := by
  induction l with
  | nil => rfl
  | cons a t ih =>
    cases t with
    | nil => rfl
    | cons b rest =>
      simp only [segmentsOf, List.length_cons] at *
      omega

theorem segmentsOf_eq_nil_of_short (l : List AirportRecord) (h : l.length < 2) :
    segmentsOf l = [] := by
  cases l with
  | nil => rfl
  | cons a t =>
    cases t with
    | nil => rfl
    | cons b rest => simp only [List.length_cons] at h; omega

theorem checkSegments_calls_length (oracle : Oracle) (lat lng : String)
    (segs : List (AirportRecord × AirportRecord)) :
    ∀ acc, (checkSegments oracle lat lng segs acc).1.length ≤ segs.length := by
  induction segs with
  | nil => intro acc; simp [checkSegments]
  | cons s rest ih =>
    intro acc
    cases hc : callOracle oracle (segCall lat lng s) with
    | error e => simp [checkSegments, hc]
    | ok pd =>
      obtain ⟨p, d⟩ := pd
      cases p with
      | true => simp [checkSegments, hc]
      | false =>
        simp only [checkSegments, hc, Bool.false_eq_true, if_false, List.length_cons]
        exact Nat.succ_le_succ (ih (false, d))

theorem checkSegments_calls_eq_take (oracle : Oracle) (lat lng : String)
    (segs : List (AirportRecord × AirportRecord)) :
    ∀ acc, (checkSegments oracle lat lng segs acc).1 =
      (segs.take (checkSegments oracle lat lng segs acc).1.length).map (segCall lat lng) := by
  induction segs with
  | nil => intro acc; simp [checkSegments]
  | cons s rest ih =>
    intro acc
    cases hc : callOracle oracle (segCall lat lng s) with
    | error e => simp [checkSegments, hc]
    | ok pd =>
      obtain ⟨p, d⟩ := pd
      cases p with
      | true => simp [checkSegments, hc]
      | false =>
        simp only [checkSegments, hc, Bool.false_eq_true, if_false, List.length_cons]
        rw [List.take_cons (Nat.succ_pos _), List.map_cons]
        exact congrArg _ (ih (false, d))

theorem checkSegments_calls_ne_nil (oracle : Oracle) (lat lng : String)
    (segs : List (AirportRecord × AirportRecord)) (acc : Bool × Rat)
    (h : segs ≠ []) : (checkSegments oracle lat lng segs acc).1 ≠ [] := by
  cases segs with
  | nil => exact absurd rfl h
  | cons s rest =>
    cases hc : callOracle oracle (segCall lat lng s) with
    | error e => simp [checkSegments, hc]
    | ok pd =>
      obtain ⟨p, d⟩ := pd
      cases p with
      | true => simp [checkSegments, hc]
      | false => simp [checkSegments, hc]

theorem checkSegments_dropLast_implausible (oracle : Oracle) (lat lng : String)
    (segs : List (AirportRecord × AirportRecord)) :
    ∀ acc c, c ∈ (checkSegments oracle lat lng segs acc).1.dropLast →
      ∃ d, callOracle oracle c = Except.ok (false, d) := by
  induction segs with
  | nil => intro acc c hc; simp [checkSegments] at hc
  | cons s rest ih =>
    intro acc c hmem
    cases hc : callOracle oracle (segCall lat lng s) with
    | error e => simp [checkSegments, hc] at hmem
    | ok pd =>
      obtain ⟨p, d⟩ := pd
      cases p with
      | true => simp [checkSegments, hc] at hmem
      | false =>
        simp only [checkSegments, hc, Bool.false_eq_true, if_false] at hmem
        cases hr : (checkSegments oracle lat lng rest (false, d)).1 with
        | nil =>
          rw [hr, List.dropLast_single] at hmem
          exact absurd hmem (List.not_mem_nil c)
        | cons x xs =>
          rw [hr] at hmem
          rw [List.dropLast_cons₂] at hmem
          rcases List.mem_cons.mp hmem with rfl | hmem2
          · exact ⟨d, hc⟩
          · exact ih (false, d) c (by rw [hr]; exact hmem2)

theorem checkSegments_early_stop (oracle : Oracle) (lat lng : String)
    (segs : List (AirportRecord × AirportRecord)) :
    ∀ acc pr, (checkSegments oracle lat lng segs acc).2 = Except.ok pr →
      (checkSegments oracle lat lng segs acc).1.length < segs.length → pr.1 = true := by
  induction segs with
  | nil => intro acc pr _ hlt; simp [checkSegments] at hlt
  | cons s rest ih =>
    intro acc pr hok hlt
    cases hc : callOracle oracle (segCall lat lng s) with
    | error e => rw [show (checkSegments oracle lat lng (s :: rest) acc).2 = Except.error e by
        simp [checkSegments, hc]] at hok; exact absurd hok (by simp)
    | ok pd =>
      obtain ⟨p, d⟩ := pd
      cases p with
      | true =>
        have : (checkSegments oracle lat lng (s :: rest) acc).2 = Except.ok (true, d) := by
          simp [checkSegments, hc]
        rw [this] at hok
        injection hok with h
        rw [← h]
      | false =>
        simp only [checkSegments, hc, Bool.false_eq_true, if_false, List.length_cons] at hok hlt
        exact ih (false, d) pr hok (Nat.lt_of_succ_lt_succ hlt)

theorem checkSegments_getLast (oracle : Oracle) (lat lng : String)
    (segs : List (AirportRecord × AirportRecord)) :
    ∀ acc c pr, (checkSegments oracle lat lng segs acc).1.getLast? = some c →
      (checkSegments oracle lat lng segs acc).2 = Except.ok pr →
      callOracle oracle c = Except.ok pr := by
  induction segs with
  | nil => intro acc c pr hlast _; simp [checkSegments] at hlast
  | cons s rest ih =>
    intro acc c pr hlast hok
    cases hc : callOracle oracle (segCall lat lng s) with
    | error e =>
      rw [show (checkSegments oracle lat lng (s :: rest) acc).2 = Except.error e by
        simp [checkSegments, hc]] at hok
      exact absurd hok (by simp)
    | ok pd =>
      obtain ⟨p, d⟩ := pd
      cases p with
      | true =>
        have h1 : (checkSegments oracle lat lng (s :: rest) acc).1 = [segCall lat lng s] := by
          simp [checkSegments, hc]
        have h2 : (checkSegments oracle lat lng (s :: rest) acc).2 = Except.ok (true, d) := by
          simp [checkSegments, hc]
        rw [h1, List.getLast?_singleton] at hlast
        rw [h2] at hok
        have hc1 : c = segCall lat lng s := by injection hlast with h; exact h.symm
        have hpr : (true, d) = pr := by injection hok
        rw [hc1, ← hpr]
        exact hc
      | false =>
        have h1 : (checkSegments oracle lat lng (s :: rest) acc).1 =
            segCall lat lng s :: (checkSegments oracle lat lng rest (false, d)).1 := by
          simp [checkSegments, hc]
        have h2 : (checkSegments oracle lat lng (s :: rest) acc).2 =
            (checkSegments oracle lat lng rest (false, d)).2 := by
          simp [checkSegments, hc]
        rw [h1] at hlast
        rw [h2] at hok
        cases hrl : (checkSegments oracle lat lng rest (false, d)).1 with
        | nil =>
          have hrest : rest = [] := by
            by_contra hne
            exact checkSegments_calls_ne_nil oracle lat lng rest (false, d) hne hrl
          subst hrest
          have h0 : (checkSegments oracle lat lng
              ([] : List (AirportRecord × AirportRecord)) (false, d)).2 =
              Except.ok (false, d) := rfl
          rw [h0] at hok
          rw [hrl, List.getLast?_singleton] at hlast
          have hc1 : c = segCall lat lng s := by injection hlast with h; exact h.symm
          have hpr : (false, d) = pr := by injection hok
          rw [hc1, ← hpr]
          exact hc
        | cons x xs =>
          rw [hrl, List.getLast?_cons_cons] at hlast
          exact ih (false, d) c pr (by rw [hrl]; exact hlast) hok

theorem checkSegments_all_implausible (oracle : Oracle) (lat lng : String)
    (segs : List (AirportRecord × AirportRecord)) :
    ∀ x, (∀ s ∈ segs, ∃ d, callOracle oracle (segCall lat lng s) = Except.ok (false, d)) →
      (checkSegments oracle lat lng segs (false, x)).1 = segs.map (segCall lat lng) ∧
      ∃ d, (checkSegments oracle lat lng segs (false, x)).2 = Except.ok (false, d) := by
  induction segs with
  | nil => intro x _; exact ⟨by simp [checkSegments], x, by simp [checkSegments]⟩
  | cons s rest ih =>
    intro x h
    obtain ⟨d0, hd0⟩ := h s (List.mem_cons_self s rest)
    have hrest : ∀ t ∈ rest, ∃ d, callOracle oracle (segCall lat lng t) = Except.ok (false, d) :=
      fun t ht => h t (List.mem_cons_of_mem s ht)
    obtain ⟨ih1, d, ih2⟩ := ih d0 hrest
    refine ⟨?_, d, ?_⟩
    · simp [checkSegments, hd0, ih1]
    · simp [checkSegments, hd0, ih2]

theorem checkSegments_error_at (oracle : Oracle) (lat lng : String)
    (s : AirportRecord × AirportRecord) (post : List (AirportRecord × AirportRecord))
    (e : String) (he : callOracle oracle (segCall lat lng s) = Except.error e) :
    ∀ (pre : List (AirportRecord × AirportRecord)) (acc : Bool × Rat),
      (∀ t ∈ pre, ∃ d, callOracle oracle (segCall lat lng t) = Except.ok (false, d)) →
      (checkSegments oracle lat lng (pre ++ s :: post) acc).2 = Except.error e := by
  intro pre
  induction pre with
  | nil => intro acc _; simp [checkSegments, he]
  | cons t pre' ih =>
    intro acc h
    obtain ⟨d0, hd0⟩ := h t (List.mem_cons_self t pre')
    have hpre : ∀ u ∈ pre', ∃ d, callOracle oracle (segCall lat lng u) = Except.ok (false, d) :=
      fun u hu => h u (List.mem_cons_of_mem t hu)
    simp only [List.cons_append, checkSegments, hd0, Bool.false_eq_true, if_false]
    exact ih (false, d0) hpre

/-! ### Unfolding lemmas for the resolver -/

theorem resolve_unknown_eq (store : RouteStore) (oracle : Oracle)
    (callsign lat lng : String) (route : RouteRecord)
    (hs : store callsign = Except.ok route)
    (hu : route.airport_codes = "unknown") :
    get_route_for_callsign_lat_lng store oracle callsign lat lng =
      ([], Except.ok ⟨route, none⟩) := by
  simp only [get_route_for_callsign_lat_lng, hs]
  rw [if_neg (not_not_intro hu)]

theorem resolve_known_calls (store : RouteStore) (oracle : Oracle)
    (callsign lat lng : String) (route : RouteRecord)
    (hs : store callsign = Except.ok route)
    (hk : route.airport_codes ≠ "unknown") :
    resolveCalls store oracle callsign lat lng =
      (checkSegments oracle lat lng (segmentsOf route._airports) (false, 0)).1 := by
  simp only [resolveCalls, get_route_for_callsign_lat_lng, hs]
  rw [if_pos hk]
  cases hres : (checkSegments oracle lat lng (segmentsOf route._airports) (false, 0)).2 with
  | error e => simp [hres]
  | ok fin => simp [hres]

theorem resolve_known_result_ok (store : RouteStore) (oracle : Oracle)
    (callsign lat lng : String) (route : RouteRecord) (fin : Bool × Rat)
    (hs : store callsign = Except.ok route)
    (hk : route.airport_codes ≠ "unknown")
    (hres : (checkSegments oracle lat lng (segmentsOf route._airports) (false, 0)).2 =
      Except.ok fin) :
    resolveResult store oracle callsign lat lng =
      Except.ok ⟨{ route with plaus := some fin.1 }, some fin⟩ := by
  simp only [resolveResult, get_route_for_callsign_lat_lng, hs]
  rw [if_pos hk]
  simp [hres]

theorem resolve_known_result_error (store : RouteStore) (oracle : Oracle)
    (callsign lat lng : String) (route : RouteRecord) (e : String)
    (hs : store callsign = Except.ok route)
    (hk : route.airport_codes ≠ "unknown")
    (hres : (checkSegments oracle lat lng (segmentsOf route._airports) (false, 0)).2 =
      Except.error e) :
    resolveResult store oracle callsign lat lng =
      Except.error (ResolveError.oracleError e) := by
  simp only [resolveResult, get_route_for_callsign_lat_lng, hs]
  rw [if_pos hk]
  simp [hres]

/-! ### The five-fractional-digit property of the formatting -/

theorem digitChar_ne_dot (n : Nat) : digitChar n ≠ '.' := by
  have h : n % 10 < 10 := Nat.mod_lt _ (by norm_num)
  have hall : ∀ k : Fin 10, Char.ofNat (48 + (k : Nat)) ≠ '.' := by decide
  simpa [digitChar] using hall ⟨n % 10, h⟩

theorem frac5digits_ne_dot (k : Nat) (c : Char) (hc : c ∈ frac5digits k) : c ≠ '.' := by
  simp only [frac5digits, List.mem_cons, List.not_mem_nil, or_false] at hc
  rcases hc with rfl | rfl | rfl | rfl | rfl <;> exact digitChar_ne_dot _

theorem takeWhile_until_dot (l1 l2 : List Char) (h : ∀ c ∈ l1, c ≠ '.') :
    (l1 ++ '.' :: l2).takeWhile (fun c => c != '.') = l1 := by
  induction l1 with
  | nil => simp [List.takeWhile_cons]
  | cons a t ih =>
    have ha : (a != '.') = true := by
      rw [bne_iff_ne]
      exact h a (List.mem_cons_self a t)
    simp only [List.cons_append, List.takeWhile_cons, ha, if_true]
    rw [ih (fun c hc => h c (List.mem_cons_of_mem a hc))]

theorem fracLen_mk (l : List Char) :
    fracLen (String.mk l) = (l.reverse.takeWhile (fun c => c != '.')).length := rfl

theorem frac5digits_length (k : Nat) : (frac5digits k).length = 5 := rfl

theorem fracLen_format5 (x : Rat) : fracLen (format5 x) = 5 := by
  have hmem : ∀ c ∈ (frac5digits ((scaledRound5 x).natAbs % 100000)).reverse,
      c ≠ '.' := fun c hc => frac5digits_ne_dot _ c (List.mem_reverse.mp hc)
  rw [format5, fracLen_mk]
  simp only [List.reverse_append, List.reverse_cons, List.append_assoc,
    List.singleton_append, List.cons_append]
  rw [takeWhile_until_dot _ _ hmem, List.length_reverse, frac5digits_length]

/-! ### Concrete fixtures for witnesses and counterexamples -/

def airportAx : AirportRecord := ⟨"KAAA", "AAA", 10, 20⟩

def airportBx : AirportRecord := ⟨"KBBB", "BBB", 11, 21⟩

def airportCx : AirportRecord := ⟨"KCCC", "CCC", 12, 22⟩

def airportGx : AirportRecord := ⟨"KGGG", "GGG", 30, 40⟩

def airportHx : AirportRecord := ⟨"KHHH", "HHH", 31, 41⟩

def routeBad : RouteRecord := ⟨"BAD123", "AAA-BBB", [airportAx, airportBx], none⟩

def routeGood : RouteRecord := ⟨"GOOD456", "GGG-HHH", [airportGx, airportHx], none⟩

def routeNone : RouteRecord := ⟨"NOPE789", "unknown", [], none⟩

def routeSolo : RouteRecord := ⟨"SOLO1", "AAA", [airportAx], none⟩

def routeTri : RouteRecord := ⟨"TRI111", "AAA-BBB-CCC", [airportAx, airportBx, airportCx], none⟩

/-- A concrete store serving the demo routes. -/
def storeDemo : RouteStore := fun cs =>
  if cs = "BAD123" then .ok routeBad
  else if cs = "GOOD456" then .ok routeGood
  else if cs = "NOPE789" then .ok routeNone
  else if cs = "SOLO1" then .ok routeSolo
  else if cs = "TRI111" then .ok routeTri
  else .error "store down"

/-- A concrete oracle: the GOOD route's first segment (airport latitude 30)
is on route; any other coordinates make the oracle fail. -/
def oracleDemo : Oracle := fun _ _ alat _ _ _ =>
  if alat = "30.00000" then .ok (true, 2)
  else .error "oracle down"

/-- A concrete oracle marking every demo segment off-route: distance 5 for
the segment starting at latitude 10, distance 150 for the one starting at
latitude 11. -/
def oracleOff : Oracle := fun _ _ alat _ _ _ =>
  if alat = "10.00000" then .ok (false, 5)
  else if alat = "11.00000" then .ok (false, 150)
  else .error "unexpected"

/-- A concrete oracle marking the demo segment starting at latitude 10 as
on-route, so a multi-segment resolution stops after its first call. -/
def oracleStop : Oracle := fun _ _ alat _ _ _ =>
  if alat = "10.00000" then .ok (true, 7) else .error "unreachable"

/-! ### Claim theorems -/

/-- Claim C2: for a callsign whose stored route record has
`airport_codes = "unknown"`, the resolver returns that record unchanged —
so in particular it gains no verdict key — and makes zero oracle calls. -/
theorem resolve_unknown_route_unchanged (store : RouteStore) (oracle : Oracle)
    (callsign lat lng : String) (route : RouteRecord)
    (hs : store callsign = Except.ok route)
    (hu : route.airport_codes = "unknown") :
    resolveCalls store oracle callsign lat lng = [] ∧
    resolveResult store oracle callsign lat lng = Except.ok ⟨route, none⟩ := by
  have h := resolve_unknown_eq store oracle callsign lat lng route hs hu
  exact ⟨by simp [resolveCalls, h], by simp [resolveResult, h]⟩

/-- Witness for C2 at a concrete store and callsign. -/
theorem resolve_unknown_route_unchanged_witness :
    storeDemo "NOPE789" = Except.ok routeNone ∧
    routeNone.airport_codes = "unknown" ∧
    (resolveCalls storeDemo oracleDemo "NOPE789" "1" "2" = [] ∧
     resolveResult storeDemo oracleDemo "NOPE789" "1" "2" = Except.ok ⟨routeNone, none⟩) :=
  ⟨rfl, rfl,
    resolve_unknown_route_unchanged storeDemo oracleDemo "NOPE789" "1" "2" routeNone rfl rfl⟩

/-- Claim C3: for a known route the oracle-call trace has at most
`N - 1` entries, it is exactly the chain-ordered prefix of the consecutive
segments, every call before the last reported an off-route verdict, and if
the loop stopped before exhausting the segments the final verdict on the
record is the on-route one (the first segment the oracle marks OK ends the
iteration). -/
theorem resolve_call_sequence (store : RouteStore) (oracle : Oracle)
    (callsign lat lng : String) (route : RouteRecord)
    (hs : store callsign = Except.ok route)
    (hk : route.airport_codes ≠ "unknown") :
    (resolveCalls store oracle callsign lat lng).length ≤ route._airports.length - 1 ∧
    resolveCalls store oracle callsign lat lng =
      ((segmentsOf route._airports).take
        (resolveCalls store oracle callsign lat lng).length).map (segCall lat lng) ∧
    (∀ c ∈ (resolveCalls store oracle callsign lat lng).dropLast,
      ∃ d, callOracle oracle c = Except.ok (false, d)) ∧
    (∀ out, resolveResult store oracle callsign lat lng = Except.ok out →
      (resolveCalls store oracle callsign lat lng).length <
        (segmentsOf route._airports).length → out.route.plaus = some true) := by
  have hcalls := resolve_known_calls store oracle callsign lat lng route hs hk
  refine ⟨?_, ?_, ?_, ?_⟩
  · rw [hcalls, ← segmentsOf_length]
    exact checkSegments_calls_length oracle lat lng _ (false, 0)
  · rw [hcalls]
    exact checkSegments_calls_eq_take oracle lat lng _ (false, 0)
  · rw [hcalls]
    exact checkSegments_dropLast_implausible oracle lat lng _ (false, 0)
  · intro out hok hlt
    cases hres : (checkSegments oracle lat lng (segmentsOf route._airports) (false, 0)).2 with
    | error e =>
      rw [resolve_known_result_error store oracle callsign lat lng route e hs hk hres] at hok
      exact absurd hok (by simp)
    | ok fin =>
      rw [resolve_known_result_ok store oracle callsign lat lng route fin hs hk hres] at hok
      rw [hcalls] at hlt
      have hp := checkSegments_early_stop oracle lat lng _ (false, 0) fin hres hlt
      simp only [Except.ok.injEq] at hok
      rw [← hok]
      simp [hp]

/-- Witness for C3: the three-airport demo route with an all-off-route
oracle (both checks happen, in order), and with an oracle that accepts the
first segment (the loop stops early with the OK verdict). -/
theorem resolve_call_sequence_witness :
    storeDemo "TRI111" = Except.ok routeTri ∧
    routeTri.airport_codes ≠ "unknown" ∧
    (resolveCalls storeDemo oracleOff "TRI111" "1" "2").length ≤
      routeTri._airports.length - 1 ∧
    resolveCalls storeDemo oracleOff "TRI111" "1" "2" =
      ((segmentsOf routeTri._airports).take
        (resolveCalls storeDemo oracleOff "TRI111" "1" "2").length).map (segCall "1" "2") ∧
    (⟨{ routeTri with plaus := some true }, some (true, 7)⟩ : ResolveOutput).route.plaus =
      some true := by
  have h1 := resolve_call_sequence storeDemo oracleOff "TRI111" "1" "2" routeTri rfl (by decide)
  have h2 := resolve_call_sequence storeDemo oracleStop "TRI111" "1" "2" routeTri rfl (by decide)
  exact ⟨rfl, by decide, h1.1, h1.2.1, h2.2.2.2 _ rfl (by decide)⟩

/-- Claim C4: when the oracle marks no segment of a known multi-segment
route as on-route, the resolver ends with the off-route verdict on the
record and the retained distance (the final loop state, printed in the
trace line) is the one the oracle reported for the last segment checked. -/
theorem resolve_no_plausible_last_distance (store : RouteStore) (oracle : Oracle)
    (callsign lat lng : String) (route : RouteRecord)
    (A B : AirportRecord) (dlast : Rat)
    (hs : store callsign = Except.ok route)
    (hk : route.airport_codes ≠ "unknown")
    (hlast : (segmentsOf route._airports).getLast? = some (A, B))
    (hall : ∀ s ∈ segmentsOf route._airports,
      ∃ d, callOracle oracle (segCall lat lng s) = Except.ok (false, d))
    (hAB : callOracle oracle (mkCall lat lng A B) = Except.ok (false, dlast)) :
    resolveResult store oracle callsign lat lng =
      Except.ok ⟨{ route with plaus := some false }, some (false, dlast)⟩ := by
  obtain ⟨htr, d, hres⟩ := checkSegments_all_implausible oracle lat lng
    (segmentsOf route._airports) 0 hall
  have htl : (checkSegments oracle lat lng (segmentsOf route._airports) (false, 0)).1.getLast? =
      some (segCall lat lng (A, B)) := by
    rw [htr, List.getLast?_map, hlast]
    rfl
  have hlastcall := checkSegments_getLast oracle lat lng (segmentsOf route._airports)
    (false, 0) (segCall lat lng (A, B)) (false, d) htl hres
  have hd : d = dlast := by
    have h2 : callOracle oracle (segCall lat lng (A, B)) = Except.ok (false, dlast) := hAB
    rw [hlastcall] at h2
    simpa using h2
  subst hd
  exact resolve_known_result_ok store oracle callsign lat lng route (false, d) hs hk hres

/-- Witness for C4: the three-airport demo route with the all-off-route
oracle; the distances are 5 then 150, and the retained distance is 150
(the last segment checked), not the minimum 5. -/
theorem resolve_no_plausible_last_distance_witness :
    storeDemo "TRI111" = Except.ok routeTri ∧
    callOracle oracleOff (mkCall "1" "2" airportBx airportCx) = Except.ok (false, 150) ∧
    resolveResult storeDemo oracleOff "TRI111" "1" "2" =
      Except.ok ⟨{ routeTri with plaus := some false }, some (false, 150)⟩ := by
  refine ⟨rfl, rfl, ?_⟩
  refine resolve_no_plausible_last_distance storeDemo oracleOff "TRI111" "1" "2" routeTri
    airportBx airportCx 150 rfl (by decide) rfl ?_ rfl
  intro s hs
  have hseg : segmentsOf routeTri._airports =
      [(airportAx, airportBx), (airportBx, airportCx)] := rfl
  rw [hseg] at hs
  simp only [List.mem_cons, List.not_mem_nil, or_false] at hs
  rcases hs with rfl | rfl
  · exact ⟨5, rfl⟩
  · exact ⟨150, rfl⟩

/-- Claim C5: when every item of a batch resolves without error,
`api_routeset` returns an ok list of the same length as the input whose
i-th element is exactly the record the i-th item resolves to. -/
theorem api_routeset_all_ok (store : RouteStore) (oracle : Oracle) (planes : List Plane)
    (h : ∀ p ∈ planes, ∃ r, resolveRouteOf store oracle p = Except.ok r) :
    ∃ rs, api_routeset store oracle planes = Except.ok rs ∧
      rs.length = planes.length ∧
      ∀ i, i < planes.length → ∃ p r, planes.get? i = some p ∧ rs.get? i = some r ∧
        resolveRouteOf store oracle p = Except.ok r := by
  induction planes with
  | nil => exact ⟨[], rfl, rfl, fun i hi => absurd hi (by simp)⟩
  | cons p rest ih =>
    obtain ⟨r, hr⟩ := h p (List.mem_cons_self p rest)
    obtain ⟨rs, hrs, hlen, hpt⟩ := ih (fun q hq => h q (List.mem_cons_of_mem p hq))
    refine ⟨r :: rs, ?_, ?_, ?_⟩
    · simp [api_routeset, hr, hrs]
    · simp [hlen]
    · intro i hi
      cases i with
      | zero => exact ⟨p, r, rfl, rfl, hr⟩
      | succ j =>
        have hj : j < rest.length := by simpa using hi
        exact hpt j hj

/-- Witness for C5 on a two-item batch mixing a known and an unknown
route. -/
theorem api_routeset_all_ok_witness :
    (∃ r, resolveRouteOf storeDemo oracleDemo ⟨"GOOD456", "1", "2"⟩ = Except.ok r) ∧
    (∃ rs, api_routeset storeDemo oracleDemo
        [(⟨"GOOD456", "1", "2"⟩ : Plane), ⟨"NOPE789", "9", "9"⟩] = Except.ok rs ∧
      rs.length = 2) := by
  have h : ∀ p ∈ [(⟨"GOOD456", "1", "2"⟩ : Plane), ⟨"NOPE789", "9", "9"⟩],
      ∃ r, resolveRouteOf storeDemo oracleDemo p = Except.ok r := by
    intro p hp
    simp only [List.mem_cons, List.not_mem_nil, or_false] at hp
    rcases hp with rfl | rfl
    · exact ⟨_, rfl⟩
    · exact ⟨_, rfl⟩
  obtain ⟨rs, h1, h2, _⟩ := api_routeset_all_ok storeDemo oracleDemo _ h
  exact ⟨h ⟨"GOOD456", "1", "2"⟩ (by simp), rs, h1, h2⟩

/-- Claim C6: every oracle call a resolution makes carries the four airport
coordinates as text with exactly five fractional digits. -/
theorem resolve_calls_five_fraction_digits (store : RouteStore) (oracle : Oracle)
    (callsign lat lng : String) (route : RouteRecord)
    (hs : store callsign = Except.ok route)
    (hk : route.airport_codes ≠ "unknown") :
    ∀ c ∈ resolveCalls store oracle callsign lat lng,
      fracLen c.alat = 5 ∧ fracLen c.alon = 5 ∧ fracLen c.blat = 5 ∧ fracLen c.blon = 5 := by
  intro c hc
  rw [resolve_known_calls store oracle callsign lat lng route hs hk,
    checkSegments_calls_eq_take oracle lat lng _ (false, 0)] at hc
  obtain ⟨s, _, rfl⟩ := List.mem_map.mp hc
  exact ⟨fracLen_format5 _, fracLen_format5 _, fracLen_format5 _, fracLen_format5 _⟩

/-- Witness for C6 at the concrete call the GOOD route resolution makes. -/
theorem resolve_calls_five_fraction_digits_witness :
    storeDemo "GOOD456" = Except.ok routeGood ∧
    (fracLen (mkCall "1" "2" airportGx airportHx).alat = 5 ∧
     fracLen (mkCall "1" "2" airportGx airportHx).alon = 5 ∧
     fracLen (mkCall "1" "2" airportGx airportHx).blat = 5 ∧
     fracLen (mkCall "1" "2" airportGx airportHx).blon = 5) :=
  ⟨rfl, resolve_calls_five_fraction_digits storeDemo oracleDemo "GOOD456" "1" "2" routeGood rfl
    (by decide) (mkCall "1" "2" airportGx airportHx) (by decide)⟩

/-- Claim C7: when the oracle invocation on the first segment the loop
reaches fails, the whole resolution ends in that propagated error — an
`Except.error`, never an ok record with an off-route verdict — so a failed
check is distinguishable from a completed check. -/
theorem resolve_oracle_failure_propagates (store : RouteStore) (oracle : Oracle)
    (callsign lat lng : String) (route : RouteRecord)
    (pre post : List (AirportRecord × AirportRecord)) (s : AirportRecord × AirportRecord)
    (e : String)
    (hs : store callsign = Except.ok route)
    (hk : route.airport_codes ≠ "unknown")
    (hsegs : segmentsOf route._airports = pre ++ s :: post)
    (hpre : ∀ t ∈ pre, ∃ d, callOracle oracle (segCall lat lng t) = Except.ok (false, d))
    (he : callOracle oracle (segCall lat lng s) = Except.error e) :
    resolveResult store oracle callsign lat lng =
      Except.error (ResolveError.oracleError e) := by
  have hres : (checkSegments oracle lat lng (segmentsOf route._airports) (false, 0)).2 =
      Except.error e := by
    rw [hsegs]
    exact checkSegments_error_at oracle lat lng s post e he pre (false, 0) hpre
  exact resolve_known_result_error store oracle callsign lat lng route e hs hk hres

/-- Witness for C7: the BAD demo route, whose only segment makes the demo
oracle fail. -/
theorem resolve_oracle_failure_propagates_witness :
    storeDemo "BAD123" = Except.ok routeBad ∧
    callOracle oracleDemo (segCall "1" "2" (airportAx, airportBx)) =
      Except.error "oracle down" ∧
    resolveResult storeDemo oracleDemo "BAD123" "1" "2" =
      Except.error (ResolveError.oracleError "oracle down") :=
  ⟨rfl, rfl,
    resolve_oracle_failure_propagates storeDemo oracleDemo "BAD123" "1" "2" routeBad
      [] [] (airportAx, airportBx) "oracle down" rfl (by decide) rfl
      (fun t ht => absurd ht (List.not_mem_nil t)) rfl⟩

/-- Claim C8: whatever record a resolution returns differs from the stored
record in at most the verdict key: callsign, airport_codes and the whole
airport list (hence every contained airport record) are unchanged. -/
theorem resolve_preserves_route_fields (store : RouteStore) (oracle : Oracle)
    (callsign lat lng : String) (route : RouteRecord) (out : ResolveOutput)
    (hs : store callsign = Except.ok route)
    (hok : resolveResult store oracle callsign lat lng = Except.ok out) :
    out.route.callsign = route.callsign ∧
    out.route.airport_codes = route.airport_codes ∧
    out.route._airports = route._airports := by
  by_cases hk : route.airport_codes = "unknown"
  · have h := resolve_unknown_eq store oracle callsign lat lng route hs hk
    have h2 : (Except.ok ⟨route, none⟩ : Except ResolveError ResolveOutput) =
        Except.ok out := by
      rw [← hok]; simp [resolveResult, h]
    simp only [Except.ok.injEq] at h2
    rw [← h2]
    exact ⟨rfl, rfl, rfl⟩
  · cases hres : (checkSegments oracle lat lng (segmentsOf route._airports) (false, 0)).2 with
    | error e =>
      rw [resolve_known_result_error store oracle callsign lat lng route e hs hk hres] at hok
      exact absurd hok (by simp)
    | ok fin =>
      rw [resolve_known_result_ok store oracle callsign lat lng route fin hs hk hres] at hok
      simp only [Except.ok.injEq] at hok
      rw [← hok]
      exact ⟨rfl, rfl, rfl⟩

/-- Witness for C8 at the GOOD demo route. -/
theorem resolve_preserves_route_fields_witness :
    storeDemo "GOOD456" = Except.ok routeGood ∧
    resolveResult storeDemo oracleDemo "GOOD456" "1" "2" =
      Except.ok ⟨{ routeGood with plaus := some true }, some (true, 2)⟩ ∧
    ((⟨{ routeGood with plaus := some true }, some (true, 2)⟩ :
        ResolveOutput).route.callsign = routeGood.callsign ∧
     (⟨{ routeGood with plaus := some true }, some (true, 2)⟩ :
        ResolveOutput).route.airport_codes = routeGood.airport_codes ∧
     (⟨{ routeGood with plaus := some true }, some (true, 2)⟩ :
        ResolveOutput).route._airports = routeGood._airports) :=
  ⟨rfl, rfl,
    resolve_preserves_route_fields storeDemo oracleDemo "GOOD456" "1" "2" routeGood
      ⟨{ routeGood with plaus := some true }, some (true, 2)⟩ rfl rfl⟩

/-- Claim C9: with the store and the oracle fixed (they are pure functions
of the embedding, the modelling the claim itself prescribes), resolving the
same callsign and position twice yields identical output: the same calls,
the same record, the same verdict and distance. -/
theorem resolve_deterministic (store : RouteStore) (oracle : Oracle)
    (callsign lat lng : String) :
    resolveResult store oracle callsign lat lng = resolveResult store oracle callsign lat lng ∧
    resolveCalls store oracle callsign lat lng = resolveCalls store oracle callsign lat lng :=
  ⟨rfl, rfl⟩

/-- Claim C10: a route record not carrying the "unknown" sentinel but with
fewer than two airports makes no oracle call, and still gets the verdict
key set — to false — rather than leaving it absent. -/
theorem resolve_short_route_false_verdict (store : RouteStore) (oracle : Oracle)
    (callsign lat lng : String) (route : RouteRecord)
    (hs : store callsign = Except.ok route)
    (hk : route.airport_codes ≠ "unknown")
    (hshort : route._airports.length < 2) :
    resolveCalls store oracle callsign lat lng = [] ∧
    resolveResult store oracle callsign lat lng =
      Except.ok ⟨{ route with plaus := some false }, some (false, 0)⟩ := by
  have hnil : segmentsOf route._airports = [] := segmentsOf_eq_nil_of_short _ hshort
  have hcs : checkSegments oracle lat lng (segmentsOf route._airports) (false, 0) =
      ([], Except.ok (false, 0)) := by rw [hnil]; rfl
  constructor
  · rw [resolve_known_calls store oracle callsign lat lng route hs hk, hcs]
  · exact resolve_known_result_ok store oracle callsign lat lng route (false, 0) hs hk
      (by rw [hcs])

/-- Witness for C10 at the single-airport demo route. -/
theorem resolve_short_route_false_verdict_witness :
    storeDemo "SOLO1" = Except.ok routeSolo ∧
    routeSolo._airports.length < 2 ∧
    (resolveCalls storeDemo oracleDemo "SOLO1" "1" "2" = [] ∧
     resolveResult storeDemo oracleDemo "SOLO1" "1" "2" =
       Except.ok ⟨{ routeSolo with plaus := some false }, some (false, 0)⟩) :=
  ⟨rfl, by decide,
    resolve_short_route_false_verdict storeDemo oracleDemo "SOLO1" "1" "2" routeSolo rfl
      (by decide) (by decide)⟩

/-- Claim C1 (counterexample): a batch whose first item makes the oracle
fail does not produce a per-item result list at all — `api_routeset`
returns the propagated error — even though the second item resolves fine
on its own.  This refutes the claimed per-item isolation: the Python loop
has no per-item exception handling. -/
theorem api_routeset_one_failure_aborts_cex :
    api_routeset storeDemo oracleDemo
      [⟨"BAD123", "1", "2"⟩, ⟨"GOOD456", "1", "2"⟩] =
      Except.error (ResolveError.oracleError "oracle down") ∧
    resolveRouteOf storeDemo oracleDemo ⟨"GOOD456", "1", "2"⟩ =
      Except.ok { routeGood with plaus := some true } :=
  ⟨rfl, rfl⟩

/-- Claim C1 (amended): one item's failure aborts the whole batch —
`api_routeset` resolves items in input order and propagates the first
item error as the error of the entire batch, with no per-item slots. -/
theorem api_routeset_error_propagates (store : RouteStore) (oracle : Oracle)
    (pre : List Plane) (p : Plane) (post : List Plane) (e : ResolveError)
    (hpre : ∀ q ∈ pre, ∃ r, resolveRouteOf store oracle q = Except.ok r)
    (hp : resolveRouteOf store oracle p = Except.error e) :
    api_routeset store oracle (pre ++ p :: post) = Except.error e := by
  induction pre with
  | nil => simp [api_routeset, hp]
  | cons q pre' ih =>
    obtain ⟨r, hr⟩ := hpre q (List.mem_cons_self q pre')
    have hih := ih (fun t ht => hpre t (List.mem_cons_of_mem q ht))
    simp [api_routeset, hr, hih]

/-- Witness for the amended C1 on a three-item batch whose middle item
fails. -/
theorem api_routeset_error_propagates_witness :
    resolveRouteOf storeDemo oracleDemo ⟨"BAD123", "1", "2"⟩ =
      Except.error (ResolveError.oracleError "oracle down") ∧
    api_routeset storeDemo oracleDemo
      [⟨"GOOD456", "1", "2"⟩, ⟨"BAD123", "1", "2"⟩, ⟨"NOPE789", "9", "9"⟩] =
      Except.error (ResolveError.oracleError "oracle down") := by
  have hpre : ∀ q ∈ [(⟨"GOOD456", "1", "2"⟩ : Plane)],
      ∃ r, resolveRouteOf storeDemo oracleDemo q = Except.ok r := by
    intro q hq
    simp only [List.mem_cons, List.not_mem_nil, or_false] at hq
    subst hq
    exact ⟨_, rfl⟩
  exact ⟨rfl, api_routeset_error_propagates storeDemo oracleDemo
    [⟨"GOOD456", "1", "2"⟩] ⟨"BAD123", "1", "2"⟩ [⟨"NOPE789", "9", "9"⟩]
    (ResolveError.oracleError "oracle down") hpre rfl⟩

end AdsbApi
